import Mathlib

/-!
Shallow embedding of the core of the kimi-cli execution loop, translated
from the Python sources:

* `kimi_cli/utils/message.py` — the translator from a tool outcome to
  conversation messages (`system_message`, `tool_ok_to_message_content`,
  `tool_result_to_messages`).
* `kimi_cli/tools/bash/__init__.py` — the subprocess-backed Bash tool
  (`Bash.parameters`, `Bash.__call__`, `_stream_subprocess`).
* `kimi_cli/ui/shell/__init__.py` — the event-draining visualizer
  (`ShellApp._visualize`) over the event types of `kimi_cli/event.py`.

Python data classes become Lean structures; Python sum-like runtime
dispatch (isinstance / match) becomes inductive types with exhaustive
matches; a Python function that can fail an `assert` becomes a function
into `Option`, with `none` standing for the assertion failure.
-/

namespace KimiCli

/-- A content part of a conversation message (kosong `ContentPart`):
either a `TextPart` or some non-text part. The code only ever
distinguishes parts via `isinstance(part, TextPart)`, so every non-text
variant is collapsed into `otherPart` carrying its runtime kind. -/
inductive ContentPart where
  | textPart (text : String)
  | otherPart (kind : String)
  deriving DecidableEq, Repr

/-- `isinstance(part, TextPart)` as used throughout `message.py`. -/
def ContentPart.isText : ContentPart → Bool
  | .textPart _ => true
  | .otherPart _ => false

/-- A conversation message (kosong `Message`): a role, an ordered list of
content parts, and an optional tool-call correlation id (absent when the
constructor omits it, as in `Message(role="user", content=...)`). -/
structure Message where
  role : String
  content : List ContentPart
  tool_call_id : Option String := none
  deriving DecidableEq, Repr

/-- The `output` field of a `ToolOk`, which at runtime is either a plain
string, a single `ContentPart`, or an iterable of `ContentPart`s — the
three cases of the `match output := result.output` in
`tool_ok_to_message_content`. -/
inductive ToolOkOutput where
  | ostr (text : String)
  | opart (p : ContentPart)
  | oparts (ps : List ContentPart)
  deriving DecidableEq, Repr

/-- A successful tool outcome (kosong `ToolOk`): output plus an optional
human-facing message. -/
structure ToolOk where
  output : ToolOkOutput
  message : Option String := none
  deriving DecidableEq, Repr

/-- A failed tool outcome (kosong `ToolError`): accumulated output, the
fuller transcript message, and the operator-facing brief. -/
structure ToolError where
  output : String
  message : String
  brief : String
  deriving DecidableEq, Repr

/-- The sum of the two tool outcomes, dispatched in the code by
`isinstance(tool_result.result, ToolError)`. -/
inductive ToolReturn where
  | ok (r : ToolOk)
  | error (e : ToolError)
  deriving DecidableEq, Repr

/-- A tool result as delivered to the translator (kosong `ToolResult`):
the correlation id of the originating tool call and the outcome. -/
structure ToolResult where
  tool_call_id : String
  result : ToolReturn
  deriving DecidableEq, Repr

/-- `system_message` from `message.py`: wraps a message string as a
system-tagged text segment, `TextPart(text=f"<system>...</system>")`. -/
def system_message (message : String) : ContentPart :=
  .textPart ("<system>" ++ message ++ "</system>")

/-- `tool_ok_to_message_content` from `message.py`. Appends the optional
human message (system-tagged, only when truthy, i.e. present and
non-empty), then the output (a non-empty string as one text part, a
single part as itself, an iterable as all of its parts), and finally
normalizes empty content to the sentinel. -/
def tool_ok_to_message_content (result : ToolOk) : List ContentPart :=
  let content : List ContentPart :=
    match result.message with
    | some m => if m = "" then [] else [system_message m]
    | none => []
  let content := content ++
    match result.output with
    | .ostr text => if text = "" then [] else [ContentPart.textPart text]
    | .opart p => [p]
    | .oparts ps => ps
  if content = [] then [system_message "Tool output is empty."] else content

/-- `tool_result_to_messages` from `message.py`. The Python function
`assert`s that a `ToolError` has a non-empty message; that assertion
failure is modelled as `none`. All returning paths are `some`. -/
def tool_result_to_messages (tool_result : ToolResult) : Option (List Message) :=
  match tool_result.result with
  | .error e =>
    if e.message = "" then
      none
    else
      let content := [system_message e.message] ++
        (if e.output = "" then [] else [ContentPart.textPart e.output])
      some [{ role := "tool", content := content,
              tool_call_id := some tool_result.tool_call_id }]
  | .ok r =>
    let content := tool_ok_to_message_content r
    let text_parts := content.filter (fun p => p.isText)
    let non_text_parts := content.filter (fun p => !p.isText)
    if non_text_parts = [] then
      some [{ role := "tool", content := text_parts,
              tool_call_id := some tool_result.tool_call_id }]
    else
      some [{ role := "tool",
              content := text_parts ++
                [system_message "Tool output contains non-text parts. Non-text parts are sent as a user message below."],
              tool_call_id := some tool_result.tool_call_id },
            { role := "user", content := non_text_parts, tool_call_id := none }]

/-! ### Events and the shell visualizer (`kimi_cli/event.py`, `kimi_cli/ui/shell/__init__.py`) -/

/-- An event on the `EventQueue` (`kimi_cli/event.py`): the control-flow
variants (`RunBegin`, `RunEnd`, `StepBegin`, `StepInterrupted`,
`ContextUsageUpdate`) plus the content variants put on the queue during a
step (`ContentPart`, `ToolCall`, `ToolCallPart`, `ToolResult`). The queue
itself is untyped at runtime, so `unknown` stands for any event variant
outside the recognized set (for example a variant added later). -/
inductive Event where
  | runBegin
  | runEnd
  | stepBegin (n : Nat)
  | stepInterrupted
  | contextUsageUpdate (usage_percentage : ℚ)
  | contentPart (p : ContentPart)
  | toolCall (id : String)
  | toolCallPart (id : String)
  | toolResultEvent (tr : ToolResult)
  | unknown (tag : String)
  deriving DecidableEq, Repr

/-- Whether the inner step loop of `ShellApp._visualize` handles the event
and keeps looping: exactly the cases of its `match event` other than the
wildcard `case _: break`. `TextPart` and every other `ContentPart` are
both handled (appended to the live view). -/
def Event.handledInStep : Event → Bool
  | .contentPart _ => true
  | .toolCall _ => true
  | .toolCallPart _ => true
  | .toolResultEvent _ => true
  | .contextUsageUpdate _ => true
  | _ => false

/-- How a call of `ShellApp._visualize` ends, as a function of the finite
sequence of events available on its queue: the run ended normally
(`RunEnd` observed), the run was interrupted (`StepInterrupted`
observed), the coroutine is still suspended in `EventQueue.get()` waiting
for more events, or one of the `assert` statements failed and the
coroutine raised `AssertionError`. -/
inductive VisualizeOutcome where
  | endedByRunEnd
  | endedByInterrupt
  | blockedOnQueue
  | assertionFailure
  deriving DecidableEq, Repr

/-- The nested `while True` loops of `ShellApp._visualize`, entered after
the two initial asserts, fused into one recursion over the pending queue
contents. The fusion is exact: an event handled by the inner `match`
(`e.handledInStep`) is rendered and the inner loop fetches the next event;
an event hitting the wildcard `case _: break` leaves the inner loop and is
dispatched by the outer loop — `StepInterrupted` ends the visualization
immediately, `StepBegin` continues the outer loop, whose next action is
again to fetch an event and re-enter the inner loop, `RunEnd` ends the
run, and anything else fails
`assert isinstance(event, StepBegin | RunEnd)`. An exhausted list means
the coroutine is still suspended in `event_queue.get()`. -/
def visualizeEventLoop : List Event → VisualizeOutcome
  | [] => .blockedOnQueue
  | e :: rest =>
    if e.handledInStep then
      visualizeEventLoop rest
    else
      match e with
      | .stepInterrupted => .endedByInterrupt
      | .stepBegin _ => visualizeEventLoop rest
      | .runEnd => .endedByRunEnd
      | _ => .assertionFailure

/-- `ShellApp._visualize` as a whole, as a function of the sequence of
events its queue will deliver: first
`assert isinstance(await event_queue.get(), RunBegin)`, then
`assert isinstance(await event_queue.get(), StepBegin)`, then the outer
visualization loop. -/
def visualize (events : List Event) : VisualizeOutcome :=
  match events with
  | [] => .blockedOnQueue
  | e1 :: rest1 =>
    match e1 with
    | .runBegin =>
      match rest1 with
      | [] => .blockedOnQueue
      | e2 :: rest2 =>
        match e2 with
        | .stepBegin _ => visualizeEventLoop rest2
        | _ => .assertionFailure
    | _ => .assertionFailure

/-! ### The Bash tool (`kimi_cli/tools/bash/__init__.py`) -/

/-- The ways the `await asyncio.wait_for(asyncio.gather(...), timeout)`
inside `_stream_subprocess` can finish: both stream readers complete
(after which `process.wait()` returns the exit code), the timeout fires
(`TimeoutError`), or the owning task is cancelled from outside
(`asyncio.CancelledError`, which is not a subclass of `TimeoutError`). -/
inductive StreamAwait where
  | completes (exitcode : Int)
  | timesOut
  | outerCancelled
  deriving DecidableEq, Repr

/-- Whether `_stream_subprocess` runs `process.kill()` before control
leaves it. The function has exactly one handler, `except TimeoutError:
process.kill(); raise`; on normal completion the process has already
exited, and a `CancelledError` from outer cancellation propagates without
entering the handler. -/
def streamSubprocessKillsChild : StreamAwait → Bool
  | .completes _ => false
  | .timesOut => true
  | .outerCancelled => false

/-- Whether the child process has been terminated or reaped by the time
control leaves `_stream_subprocess`: on completion it exited on its own
and `await process.wait()` reaps it; on timeout it is killed; on outer
cancellation neither happens and the child is left running. -/
def streamSubprocessChildReleased : StreamAwait → Bool
  | .completes _ => true
  | .timesOut => true
  | .outerCancelled => false

/-- The observable result of `_stream_subprocess` as seen by
`Bash.__call__`: an exit code, or a `TimeoutError` propagating out of the
`except` handler, together with the stdout/stderr lines already appended
to `output` by the callbacks before the subprocess ended. -/
inductive SubprocessRun where
  | exited (exitcode : Int) (lines : List String)
  | timedOut (lines : List String)
  deriving DecidableEq, Repr

/-- `Bash.__call__` from `kimi_cli/tools/bash/__init__.py`, as a function
of the subprocess behavior: joins the accumulated lines with
`"".join(output)` and builds the `ToolOk` / `ToolError` of the three
branches (exit 0, nonzero exit, `except TimeoutError`). The f-strings
become string concatenations with `toString`. -/
def bashCall (timeout : Nat) (run : SubprocessRun) : ToolReturn :=
  match run with
  | .exited exitcode lines =>
    let output_str := String.join lines
    if exitcode = 0 then
      .ok { output := .ostr output_str,
            message := some "Command executed successfully." }
    else
      .error
        { output := output_str,
          message := "Command failed with exit code: " ++ toString exitcode,
          brief := "Failed with exit code: " ++ toString exitcode }
  | .timedOut lines =>
    let output_str := String.join lines
    .error
      { output := output_str,
        message := "Command killed by timeout (" ++ toString timeout ++ "s)",
        brief := "Killed by timeout (" ++ toString timeout ++ "s)" }

/-- One property of the declarative JSON schema `Bash.parameters`, here
the `"timeout"` entry: its `type`, `description`, and optional
`default` / `minimum` / `maximum` bounds, mirroring the keys present in
the Python dict literal. -/
structure TimeoutPropertySchema where
  type : String
  description : String
  default : Option Nat
  minimum : Option Nat
  maximum : Option Nat
  deriving DecidableEq, Repr

/-- The `"timeout"` property of `Bash.parameters` exactly as declared in
the source: type `"number"`, the two-line description (the backslash line
continuation inside the Python string keeps the 20 spaces of indentation
of the second line), a default of 60, and no `"minimum"` or `"maximum"`
key at all. -/
def bashTimeoutSchema : TimeoutPropertySchema :=
  { type := "number",
    description := "The timeout in seconds for the command to execute.                     If the command takes longer than this, it will be killed.",
    default := some 60,
    minimum := none,
    maximum := none }

/-- JSON-schema numeric validation of a proposed `timeout` argument
against `bashTimeoutSchema`: a `minimum` or `maximum` key constrains the
value when present; an absent key constrains nothing. This is the check a
schema validator performs before the tool body runs. -/
def bashSchemaAcceptsTimeout (t : Int) : Bool :=
  (match bashTimeoutSchema.minimum with
   | none => true
   | some mn => decide ((mn : Int) ≤ t)) &&
  (match bashTimeoutSchema.maximum with
   | none => true
   | some mx => decide (t ≤ (mx : Int)))

/-- The default of the `timeout` parameter in the signature of
`Bash.__call__` (`timeout: int = 60`). -/
def bashCallTimeoutDefault : Nat := 60

/-! ### Theorems -/

/-- C1: the visualizer is claimed never to raise, with unrecognized event
variants safely ignored; this evaluates `ShellApp._visualize` at a
concrete event sequence refuting that. After a well-formed prefix
(`RunBegin`, `StepBegin 1`), an event variant outside the recognized set
falls through the step-loop wildcard `case _: break` and then fails
`assert isinstance(event, StepBegin | RunEnd)`, so the coroutine raises
`AssertionError` instead of ignoring the variant. -/
theorem c1_unrecognized_event_assertion_failure :
    visualize [Event.runBegin, Event.stepBegin 1, Event.unknown "FutureVariant"] =
      VisualizeOutcome.assertionFailure := by
  decide

/-- C2: the claim says a cancelled owning task still kills the child
process before the cancellation propagates; this evaluates
`_stream_subprocess` at the failing scenario. Its only exception handler
is `except TimeoutError: process.kill(); raise`, and `CancelledError` is
not a `TimeoutError`, so under outer cancellation `process.kill()` never
runs and the child is neither terminated nor reaped when the cancellation
propagates. -/
theorem c2_cancellation_leaves_child_running :
    streamSubprocessKillsChild StreamAwait.outerCancelled = false ∧
    streamSubprocessChildReleased StreamAwait.outerCancelled = false := by
  decide

/-- C3: on timeout the Bash tool kills the child process and returns an
`Error` whose `message` is `"Command killed by timeout (Ts)"`, whose
`brief` is `"Killed by timeout (Ts)"` with the timeout `T` substituted,
and whose `output` is exactly the join of the lines accumulated before
termination. -/
theorem c3_timeout_outcome :
    streamSubprocessKillsChild StreamAwait.timesOut = true ∧
    ∀ (timeout : Nat) (lines : List String),
      bashCall timeout (SubprocessRun.timedOut lines) =
        ToolReturn.error
          { output := String.join lines,
            message := "Command killed by timeout (" ++ toString timeout ++ "s)",
            brief := "Killed by timeout (" ++ toString timeout ++ "s)" } :=
  ⟨rfl, fun _ _ => rfl⟩

/-- C4: on normal exit the Bash tool returns `Ok` with the accumulated
output and message `"Command executed successfully."` when the exit
status is 0, and `Error` with the accumulated output, message
`"Command failed with exit code: N"` and brief
`"Failed with exit code: N"` when the exit status is a nonzero `N`. -/
theorem c4_exit_outcome :
    (∀ (timeout : Nat) (lines : List String),
      bashCall timeout (SubprocessRun.exited 0 lines) =
        ToolReturn.ok
          { output := ToolOkOutput.ostr (String.join lines),
            message := some "Command executed successfully." }) ∧
    (∀ (timeout : Nat) (lines : List String) (code : Int), code ≠ 0 →
      bashCall timeout (SubprocessRun.exited code lines) =
        ToolReturn.error
          { output := String.join lines,
            message := "Command failed with exit code: " ++ toString code,
            brief := "Failed with exit code: " ++ toString code }) := by
  constructor
  · intro t l
    rfl
  · intro t l code hc
    simp [bashCall, hc]

/-- C4 witness: a concrete nonzero exit status, obtained by applying
`c4_exit_outcome` at exit code 2 with one accumulated line. -/
theorem c4_exit_outcome_witness :
    (2 : Int) ≠ 0 ∧
    bashCall 5 (SubprocessRun.exited 2 ["a\n"]) =
      ToolReturn.error
        { output := String.join ["a\n"],
          message := "Command failed with exit code: " ++ toString (2 : Int),
          brief := "Failed with exit code: " ++ toString (2 : Int) } :=
  ⟨by decide, c4_exit_outcome.2 5 ["a\n"] 2 (by decide)⟩

/-- C5: the claim says the declared timeout schema bounds the timeout to
a configured maximum so that larger arguments are rejected before the
tool body runs; this evaluates the schema as declared. The default is 60
as claimed, but the `"timeout"` property of `Bash.parameters` carries no
`"maximum"` key, so schema validation accepts 301 (and any larger value)
and the tool body runs — while the repository test suite
(`test_bash_params_schema`) expects the schema to carry `maximum: 300`. -/
theorem c5_timeout_schema_unbounded :
    bashTimeoutSchema.default = some 60 ∧
    bashCallTimeoutDefault = 60 ∧
    bashTimeoutSchema.maximum = none ∧
    bashSchemaAcceptsTimeout 301 = true ∧
    bashSchemaAcceptsTimeout 1000000 = true := by
  decide

/-- C6: for a `ToolResult` carrying an `Error` outcome with non-empty
message, the translator returns exactly one tool-role message whose
content is the error message wrapped as a system-tagged text segment,
followed by the raw output as a separate text segment if and only if the
output is non-empty. -/
theorem c6_error_translation (tr : ToolResult) (e : ToolError)
    (hres : tr.result = ToolReturn.error e) (hmsg : e.message ≠ "") :
    tool_result_to_messages tr =
      some [{ role := "tool",
              content := [system_message e.message] ++
                (if e.output = "" then [] else [ContentPart.textPart e.output]),
              tool_call_id := some tr.tool_call_id }] := by
  simp [tool_result_to_messages, hres, hmsg]

/-- C6 witness: a concrete error with message `"boom"` and non-empty
output, obtained by applying `c6_error_translation`. -/
theorem c6_error_translation_witness :
    tool_result_to_messages ⟨"call-6", ToolReturn.error ⟨"out", "boom", "b"⟩⟩ =
      some [{ role := "tool",
              content := [system_message "boom", ContentPart.textPart "out"],
              tool_call_id := some "call-6" }] :=
  c6_error_translation ⟨"call-6", ToolReturn.error ⟨"out", "boom", "b"⟩⟩
    ⟨"out", "boom", "b"⟩ rfl (by decide)

/-- C7: for an `Ok` outcome whose content has at least one non-text part,
the translator returns exactly two messages in order — a tool-role
message with all text parts plus the fixed non-text notice, then a
user-role message with only the non-text parts; with no non-text part it
returns exactly one tool-role message with the text parts. -/
theorem c7_ok_nontext_translation (tr : ToolResult) (r : ToolOk)
    (hres : tr.result = ToolReturn.ok r) :
    ((tool_ok_to_message_content r).filter (fun p => !p.isText) ≠ [] →
      tool_result_to_messages tr =
        some [{ role := "tool",
                content := (tool_ok_to_message_content r).filter (fun p => p.isText) ++
                  [system_message "Tool output contains non-text parts. Non-text parts are sent as a user message below."],
                tool_call_id := some tr.tool_call_id },
              { role := "user",
                content := (tool_ok_to_message_content r).filter (fun p => !p.isText),
                tool_call_id := none }]) ∧
    ((tool_ok_to_message_content r).filter (fun p => !p.isText) = [] →
      tool_result_to_messages tr =
        some [{ role := "tool",
                content := (tool_ok_to_message_content r).filter (fun p => p.isText),
                tool_call_id := some tr.tool_call_id }]) := by
  constructor <;> intro h <;> simp [tool_result_to_messages, hres, h]

/-- C7 witness: an `Ok` outcome with one text part and one non-text part
yields the two messages, obtained by applying `c7_ok_nontext_translation`. -/
theorem c7_ok_nontext_translation_witness :
    tool_result_to_messages
        ⟨"call-7", ToolReturn.ok
          ⟨ToolOkOutput.oparts [ContentPart.textPart "hello", ContentPart.otherPart "image"], none⟩⟩ =
      some [{ role := "tool",
              content := [ContentPart.textPart "hello",
                system_message "Tool output contains non-text parts. Non-text parts are sent as a user message below."],
              tool_call_id := some "call-7" },
            { role := "user", content := [ContentPart.otherPart "image"],
              tool_call_id := none }] := by
  have h := (c7_ok_nontext_translation
      ⟨"call-7", ToolReturn.ok
        ⟨ToolOkOutput.oparts [ContentPart.textPart "hello", ContentPart.otherPart "image"], none⟩⟩
      ⟨ToolOkOutput.oparts [ContentPart.textPart "hello", ContentPart.otherPart "image"], none⟩
      rfl).1 (by decide)
  exact h

/-- C8: an `Ok` outcome with empty output and no human message yields
exactly one tool-role message whose sole content is the system-tagged
sentinel `"Tool output is empty."`; and no `ToolResult` whatsoever
translates to an empty message list. -/
theorem c8_empty_normalization :
    (∀ (tr : ToolResult) (r : ToolOk),
      tr.result = ToolReturn.ok r → r.message = none → r.output = ToolOkOutput.ostr "" →
      tool_result_to_messages tr =
        some [{ role := "tool",
                content := [system_message "Tool output is empty."],
                tool_call_id := some tr.tool_call_id }]) ∧
    (∀ (tr : ToolResult) (ms : List Message),
      tool_result_to_messages tr = some ms → ms ≠ []) := by
  constructor
  · intro tr r hres hmsg hout
    simp [tool_result_to_messages, hres, tool_ok_to_message_content, hmsg, hout,
      system_message, ContentPart.isText]
  · intro tr ms h
    obtain ⟨id, res⟩ := tr
    cases res with
    | error e =>
      by_cases hm : e.message = ""
      · simp [tool_result_to_messages, hm] at h
      · simp only [tool_result_to_messages, hm, if_false, Option.some.injEq] at h
        simp [← h]
    | ok r =>
      by_cases hnt : (tool_ok_to_message_content r).filter (fun p => !p.isText) = []
      · simp only [tool_result_to_messages, hnt, if_true, Option.some.injEq] at h
        simp [← h]
      · simp only [tool_result_to_messages, hnt, if_false, Option.some.injEq] at h
        simp [← h]

/-- C8 witness: a concrete `Ok` with empty string output and no message,
obtained by applying `c8_empty_normalization`. -/
theorem c8_empty_normalization_witness :
    tool_result_to_messages ⟨"call-8", ToolReturn.ok ⟨ToolOkOutput.ostr "", none⟩⟩ =
      some [{ role := "tool",
              content := [system_message "Tool output is empty."],
              tool_call_id := some "call-8" }] :=
  c8_empty_normalization.1 ⟨"call-8", ToolReturn.ok ⟨ToolOkOutput.ostr "", none⟩⟩
    ⟨ToolOkOutput.ostr "", none⟩ rfl rfl rfl

/-- C9: the translator is partial on `Error` outcomes: an `Error` with an
empty message makes the `assert` fail (modelled as `none`), and whenever
the message is non-empty the translator returns a message list, so under
that precondition the faulting branch is unreachable. -/
theorem c9_partial_on_empty_error_message :
    tool_result_to_messages ⟨"call-9", ToolReturn.error ⟨"partial", "", "b"⟩⟩ = none ∧
    (∀ (tr : ToolResult) (e : ToolError),
      tr.result = ToolReturn.error e → e.message ≠ "" →
      (tool_result_to_messages tr).isSome = true) := by
  constructor
  · rfl
  · intro tr e hres hmsg
    simp [tool_result_to_messages, hres, hmsg]

/-- C9 witness: a concrete error with non-empty message translates to
`some` messages, obtained by applying `c9_partial_on_empty_error_message`. -/
theorem c9_partial_on_empty_error_message_witness :
    (tool_result_to_messages ⟨"call-9w", ToolReturn.error ⟨"", "m", "b"⟩⟩).isSome = true :=
  c9_partial_on_empty_error_message.2 ⟨"call-9w", ToolReturn.error ⟨"", "m", "b"⟩⟩
    ⟨"", "m", "b"⟩ rfl (by decide)

/-- C10: every tool-role message the translator returns carries the
tool-call correlation id of the input `ToolResult`, on the error path and
on both success paths, and every user-role message it returns (the
trailing message of the non-text case) carries no correlation id. -/
theorem c10_correlation_id_preserved (tr : ToolResult) (ms : List Message)
    (h : tool_result_to_messages tr = some ms) :
    (∀ m ∈ ms, m.role = "tool" → m.tool_call_id = some tr.tool_call_id) ∧
    (∀ m ∈ ms, m.role = "user" → m.tool_call_id = none) := by
  obtain ⟨id, res⟩ := tr
  cases res with
  | error e =>
    by_cases hmsg : e.message = ""
    · simp [tool_result_to_messages, hmsg] at h
    · simp only [tool_result_to_messages, hmsg, if_false, Option.some.injEq] at h
      subst h
      constructor <;> intro m hm hrole
      · simp at hm
        simp [hm]
      · simp at hm
        rw [hm] at hrole
        simp at hrole
  | ok r =>
    by_cases hnt : (tool_ok_to_message_content r).filter (fun p => !p.isText) = []
    · simp only [tool_result_to_messages, hnt, if_true, Option.some.injEq] at h
      subst h
      constructor <;> intro m hm hrole
      · simp at hm
        simp [hm]
      · simp at hm
        rw [hm] at hrole
        simp at hrole
    · simp only [tool_result_to_messages, hnt, if_false, Option.some.injEq] at h
      subst h
      constructor <;> intro m hm hrole
      · simp at hm
        rcases hm with hm | hm
        · simp [hm]
        · rw [hm] at hrole
          simp at hrole
      · simp at hm
        rcases hm with hm | hm
        · rw [hm] at hrole
          simp at hrole
        · simp [hm]

/-- C10 witness: the non-text success case at a concrete input — the
tool-role message carries the correlation id `"call-10"` and the trailing
user-role message carries none, obtained by applying
`c10_correlation_id_preserved`. -/
theorem c10_correlation_id_preserved_witness :
    (Message.mk "tool"
        [system_message "Tool output contains non-text parts. Non-text parts are sent as a user message below."]
        (some "call-10")).tool_call_id = some "call-10" ∧
    (Message.mk "user" [ContentPart.otherPart "img"] none).tool_call_id = none :=
  ⟨(c10_correlation_id_preserved
      ⟨"call-10", ToolReturn.ok ⟨ToolOkOutput.oparts [ContentPart.otherPart "img"], none⟩⟩
      [Message.mk "tool"
        [system_message "Tool output contains non-text parts. Non-text parts are sent as a user message below."]
        (some "call-10"),
       Message.mk "user" [ContentPart.otherPart "img"] none]
      (by decide)).1
      (Message.mk "tool"
        [system_message "Tool output contains non-text parts. Non-text parts are sent as a user message below."]
        (some "call-10"))
      (by decide) rfl,
   (c10_correlation_id_preserved
      ⟨"call-10", ToolReturn.ok ⟨ToolOkOutput.oparts [ContentPart.otherPart "img"], none⟩⟩
      [Message.mk "tool"
        [system_message "Tool output contains non-text parts. Non-text parts are sent as a user message below."]
        (some "call-10"),
       Message.mk "user" [ContentPart.otherPart "img"] none]
      (by decide)).2
      (Message.mk "user" [ContentPart.otherPart "img"] none)
      (by decide) rfl⟩

end KimiCli

